import Mathlib

/-!
Verification development for mlir/lib/TableGen/CodeGenHelpers.cpp: the
static-verifier constraint uniquing and emission helpers. The data model
(constraints, per-kind registries, the emitter state) and the operations
(name generation, collection, emission, lookup) are embedded shallowly
below; theorems about the frozen claims follow the definitions.
-/

namespace CodeGenHelpers

/-- Substitution-template token: a literal text fragment or a symbolic
placeholder such as the self reference or the enclosing-op reference.
Modelled from the spec: the substitution engine (tgfmt and FmtContext,
declared in mlir/TableGen/Format.h, not present under src/) rewrites a
condition template under a fixed symbolic binding and leaves an
unresolved-placeholder marker for names outside the binding. -/
inductive TgTok where
  | lit (s : String)
  | ph (name : String)
deriving DecidableEq

/-- Modelled from the spec: the fixed symbolic binding supplied to the
substitution engine (self receiver name, extra substitutions such as the
enclosing-op reference, and an optional builder name). -/
structure FmtContext where
  selfName : Option String := none
  substs : List (String × String) := []
  builderName : Option String := none

/-- Marker substring produced for a placeholder with no binding. -/
def noSubstMarker : String := "<no-subst-found>"

/-- Modelled from the spec: substitution of a fixed symbolic binding into a
condition template; unresolved placeholders become the marker. -/
def tgfmt (tmpl : List TgTok) (ctx : FmtContext) : String :=
  String.join (tmpl.map fun t =>
    match t with
    | .lit s => s
    | .ph n =>
      if n = "_self" then ctx.selfName.getD noSubstMarker
      else if n = "_builder" then ctx.builderName.getD noSubstMarker
      else
        match ctx.substs.lookup n with
        | some r => r
        | none => noSubstMarker)

/-- Substring test on character lists: does the needle occur inside. -/
def hasSubList (needle : List Char) : List Char → Bool
  | [] => needle.isEmpty
  | c :: rest => needle.isPrefixOf (c :: rest) || hasSubList needle rest

/-- StringRef::contains of llvm: hay contains needle as a substring. -/
def strContains (hay needle : String) : Bool :=
  hasSubList needle.data hay.data

/-- Decimal digit character, code 48 + n for n below ten. -/
def decDigitChar (n : Nat) : Char := Char.ofNat (48 + n)

/-- Fuel-indexed decimal rendering, most significant digit first. -/
def natDecAux : Nat → Nat → List Char
  | 0, _ => []
  | fuel + 1, n =>
    if n < 10 then [decDigitChar n]
    else natDecAux fuel (n / 10) ++ [decDigitChar (n % 10)]

/-- Decimal rendering of an unsigned value, as Twine formats the ordinal. -/
def natDec (n : Nat) : String := String.mk (natDecAux (n + 1) n)

/-- Uppercase hexadecimal digit character. -/
def hexDigitChar (n : Nat) : Char :=
  if n < 10 then Char.ofNat (48 + n) else Char.ofNat (55 + n)

/-- llvm utohexstr restricted to byte values: uppercase, no leading zeros. -/
def byteToHex (n : Nat) : String :=
  if n = 0 then "0"
  else if n < 16 then String.mk [hexDigitChar n]
  else String.mk [hexDigitChar (n / 16), hexDigitChar (n % 16)]

/-- llvm isAlnum on ASCII: decimal digits, uppercase or lowercase letters. -/
def isAlnumChar (c : Char) : Bool :=
  (48 ≤ c.toNat && c.toNat ≤ 57) || (65 ≤ c.toNat && c.toNat ≤ 90) ||
    (97 ≤ c.toNat && c.toNat ≤ 122)

/-- Last path component, as sys::path::filename on posix separators for
paths that do not end in a separator: characters after the last slash. -/
def pathFilename (p : String) : String :=
  String.mk (p.data.foldl (fun acc c => if c = '/' then [] else acc ++ [c]) [])

/-- StringRef::consume_back of the ".td" extension. -/
def consumeBackTd (s : String) : String :=
  if ['.', 't', 'd'].isSuffixOf s.data then String.mk (s.data.take (s.data.length - 3))
  else s

/-- Unique label derived from the input file name: tag, then the base file
name with the extension stripped and every byte that is not alphanumeric
or underscore replaced by its uppercase hexadecimal rendering. -/
def getUniqueOutputLabel (inputFilename tag : String) : String :=
  let nameRef := consumeBackTd (pathFilename inputFilename)
  tag ++ String.join (nameRef.data.map fun c =>
    if isAlnumChar c || c = '_' then String.mk [c] else byteToHex (c.toNat % 256))

/-- One constraint value: whether its predicate record is null, its
condition template, its summary, its declared interface type (empty when
none is declared; meaningful for property constraints), and whether it is
a derived attribute (meaningful for attribute constraints). Modelled from
the spec: constraints are compared by full structural value. -/
structure Constraint where
  predIsNull : Bool
  conditionTemplate : List TgTok
  summary : String
  interfaceType : String
  isDerivedAttr : Bool
deriving DecidableEq

/-- Modelled from the spec: ConstraintMap (declared in
mlir/TableGen/CodeGenHelpers.h, not present under src/) is an
insertion-ordered deduplicating map from constraint values to generated
names, embedded as an association list that appends fresh entries. -/
abbrev ConstraintMap := List (Constraint × String)

/-- Find the generated name registered for a constraint, if any: the
first entry with a structurally equal key. -/
def lookupConstraint : ConstraintMap → Constraint → Option String
  | [], _ => none
  | e :: rest, c => if e.1 = c then some e.2 else lookupConstraint rest c

/-- StaticVerifierFunctionEmitter::getUniqueName. -/
def getUniqueName (uniqueOutputLabel kind : String) (index : Nat) : String :=
  "__mlir_ods_local_" ++ kind ++ "_constraint_" ++ uniqueOutputLabel ++ natDec index

/-- StaticVerifierFunctionEmitter::collectConstraint: try_emplace the
constraint; on fresh insertion the generated name uses the map size as
observed after the insertion. -/
def collectConstraint (uniqueOutputLabel : String) (m : ConstraintMap)
    (kind : String) (c : Constraint) : ConstraintMap :=
  match lookupConstraint m c with
  | some _ => m
  | none => m ++ [(c, getUniqueName uniqueOutputLabel kind (m.length + 1))]

/-- One operation definition, with its declared namespace and its named
operand, result, attribute, property, successor and region constraints. -/
structure Operator where
  cppNamespace : String
  operands : List Constraint
  results : List Constraint
  attributes : List Constraint
  properties : List Constraint
  successors : List Constraint
  regions : List Constraint

/-- One pattern leaf: an operand, attribute, or property matcher. -/
inductive DagLeaf where
  | operandMatcher (c : Constraint)
  | attrMatcher (c : Constraint)
  | propMatcher (c : Constraint)

/-- DagLeaf::getAsConstraint. -/
def DagLeaf.getAsConstraint : DagLeaf → Constraint
  | .operandMatcher c => c
  | .attrMatcher c => c
  | .propMatcher c => c

/-- The emitter state: the output-scope label fixed at construction and
the five per-kind registries. -/
structure StaticVerifierFunctionEmitter where
  uniqueOutputLabel : String
  typeConstraints : ConstraintMap := []
  attrConstraints : ConstraintMap := []
  propConstraints : ConstraintMap := []
  successorConstraints : ConstraintMap := []
  regionConstraints : ConstraintMap := []

/-- The constructor: derive the label from the input file name and tag;
all registries start empty. -/
def mkStaticVerifierFunctionEmitter (inputFilename tag : String) :
    StaticVerifierFunctionEmitter :=
  { uniqueOutputLabel := getUniqueOutputLabel inputFilename tag }

/-- StaticVerifierFunctionEmitter::getTypeConstraintFn: the assert on a
missing entry is embedded as the error case, which never yields a value. -/
def StaticVerifierFunctionEmitter.getTypeConstraintFn
    (st : StaticVerifierFunctionEmitter) (c : Constraint) : Except String String :=
  match lookupConstraint st.typeConstraints c with
  | some n => Except.ok n
  | none => Except.error "expected to find a type constraint"

/-- StaticVerifierFunctionEmitter::getAttrConstraintFn: fallible lookup. -/
def StaticVerifierFunctionEmitter.getAttrConstraintFn
    (st : StaticVerifierFunctionEmitter) (c : Constraint) : Option String :=
  lookupConstraint st.attrConstraints c

/-- StaticVerifierFunctionEmitter::getPropConstraintFn: fallible lookup. -/
def StaticVerifierFunctionEmitter.getPropConstraintFn
    (st : StaticVerifierFunctionEmitter) (c : Constraint) : Option String :=
  lookupConstraint st.propConstraints c

/-- StaticVerifierFunctionEmitter::getSuccessorConstraintFn, with the
assert embedded as the error case. -/
def StaticVerifierFunctionEmitter.getSuccessorConstraintFn
    (st : StaticVerifierFunctionEmitter) (c : Constraint) : Except String String :=
  match lookupConstraint st.successorConstraints c with
  | some n => Except.ok n
  | none => Except.error "expected to find a sucessor constraint"

/-- StaticVerifierFunctionEmitter::getRegionConstraintFn, with the assert
embedded as the error case. -/
def StaticVerifierFunctionEmitter.getRegionConstraintFn
    (st : StaticVerifierFunctionEmitter) (c : Constraint) : Except String String :=
  match lookupConstraint st.regionConstraints c with
  | some n => Except.ok n
  | none => Except.error "expected to find a region constraint"

/-- canUniqueAttrConstraint: the substituted condition must contain no
unresolved-placeholder marker. -/
def canUniqueAttrConstraint (attr : Constraint) : Bool :=
  let test := tgfmt attr.conditionTemplate
    { selfName := some "attr", substs := [("_op", "*op")] }
  !(strContains test noSubstMarker)

/-- canUniquePropConstraint: no unresolved-placeholder marker, the
substituted condition is not the literal "true", and an interface type is
declared. -/
def canUniquePropConstraint (prop : Constraint) : Bool :=
  let test := tgfmt prop.conditionTemplate
    { selfName := some "prop", substs := [("_op", "*op")] }
  !(strContains test noSubstMarker) && test != "true" && !(prop.interfaceType == "")

/-- NamedTypeConstraint::hasPredicate. -/
def hasPredicate (c : Constraint) : Bool := !c.predIsNull

/-- The operand and result half of collectOpConstraints. -/
def collectTypeConstraintsFrom (lbl : String) (m : ConstraintMap)
    (values : List Constraint) : ConstraintMap :=
  values.foldl (fun m v => if hasPredicate v then collectConstraint lbl m "type" v else m) m

/-- The attribute loop of collectOpConstraints. -/
def collectAttrConstraintsFrom (lbl : String) (m : ConstraintMap)
    (attrs : List Constraint) : ConstraintMap :=
  attrs.foldl (fun m a =>
    if !a.predIsNull && !a.isDerivedAttr && canUniqueAttrConstraint a then
      collectConstraint lbl m "attr" a
    else m) m

/-- The property loop of collectOpConstraints. -/
def collectPropConstraintsFrom (lbl : String) (m : ConstraintMap)
    (props : List Constraint) : ConstraintMap :=
  props.foldl (fun m p =>
    if !p.predIsNull && canUniquePropConstraint p then
      collectConstraint lbl m "prop" p
    else m) m

/-- The successor loop of collectOpConstraints. -/
def collectSuccessorConstraintsFrom (lbl : String) (m : ConstraintMap)
    (succs : List Constraint) : ConstraintMap :=
  succs.foldl (fun m s =>
    if !s.predIsNull then collectConstraint lbl m "successor" s else m) m

/-- The region loop of collectOpConstraints. -/
def collectRegionConstraintsFrom (lbl : String) (m : ConstraintMap)
    (regions : List Constraint) : ConstraintMap :=
  regions.foldl (fun m r =>
    if !r.predIsNull then collectConstraint lbl m "region" r else m) m

/-- The body of the collectOpConstraints loop for one op definition:
collect operand and result type constraints, then eligible attribute
constraints, eligible property constraints, successor and region
constraints. Each loop touches only its own registry. -/
def collectOpStep (st : StaticVerifierFunctionEmitter) (op : Operator) :
    StaticVerifierFunctionEmitter :=
  { st with
    typeConstraints :=
      collectTypeConstraintsFrom st.uniqueOutputLabel
        (collectTypeConstraintsFrom st.uniqueOutputLabel st.typeConstraints op.operands)
        op.results
    attrConstraints :=
      collectAttrConstraintsFrom st.uniqueOutputLabel st.attrConstraints op.attributes
    propConstraints :=
      collectPropConstraintsFrom st.uniqueOutputLabel st.propConstraints op.properties
    successorConstraints :=
      collectSuccessorConstraintsFrom st.uniqueOutputLabel st.successorConstraints
        op.successors
    regionConstraints :=
      collectRegionConstraintsFrom st.uniqueOutputLabel st.regionConstraints
        op.regions }

/-- StaticVerifierFunctionEmitter::collectOpConstraints. -/
def StaticVerifierFunctionEmitter.collectOpConstraints
    (st : StaticVerifierFunctionEmitter) (opDefs : List Operator) :
    StaticVerifierFunctionEmitter :=
  opDefs.foldl collectOpStep st

/-- The body of the collectPatternConstraints loop for one leaf: register
the leaf constraint under the registry of its matcher kind, with no
eligibility filtering. -/
def collectPatternStep (st : StaticVerifierFunctionEmitter) (leaf : DagLeaf) :
    StaticVerifierFunctionEmitter :=
  match leaf with
  | .operandMatcher c =>
    { st with typeConstraints :=
        collectConstraint st.uniqueOutputLabel st.typeConstraints "type" c }
  | .attrMatcher c =>
    { st with attrConstraints :=
        collectConstraint st.uniqueOutputLabel st.attrConstraints "attr" c }
  | .propMatcher c =>
    { st with propConstraints :=
        collectConstraint st.uniqueOutputLabel st.propConstraints "prop" c }

/-- StaticVerifierFunctionEmitter::collectPatternConstraints. -/
def StaticVerifierFunctionEmitter.collectPatternConstraints
    (st : StaticVerifierFunctionEmitter) (constraints : List DagLeaf) :
    StaticVerifierFunctionEmitter :=
  constraints.foldl collectPatternStep st

/-- raw_ostream::write_escaped on one character: backslash, tab, newline
and double quote get two-character escapes, printable ASCII passes
through, and everything else becomes a three-digit octal escape. -/
def escapeChar (c : Char) : String :=
  if c = '\\' then "\\\\"
  else if c = '\t' then "\\t"
  else if c = '\n' then "\\n"
  else if c = '"' then "\\\""
  else if 32 ≤ c.toNat && c.toNat ≤ 126 then String.mk [c]
  else
    let n := c.toNat % 256
    String.mk ['\\', Char.ofNat (48 + n / 64 % 8), Char.ofNat (48 + n / 8 % 8),
      Char.ofNat (48 + n % 8)]

/-- mlir::tblgen::escapeString. -/
def escapeString (value : String) : String :=
  String.join (value.data.map escapeChar)

/-- typeConstraintCode with the three format arguments substituted. -/
def typeConstraintCode (name cond desc : String) : String :=
  "\nstatic ::llvm::LogicalResult " ++ name ++
  "(\n    ::mlir::Operation *op, ::mlir::Type type, ::llvm::StringRef valueKind,\n    unsigned valueIndex) \x7b\n  if (!(" ++
  cond ++
  ")) \x7b\n    return op->emitOpError(valueKind) << \" #\" << valueIndex\n        << \" must be " ++
  desc ++ ", but got \" << type;\n  \x7d\n  return ::mlir::success();\n\x7d\n"

/-- attrConstraintCode with the three format arguments substituted. -/
def attrConstraintCode (name cond desc : String) : String :=
  "\nstatic ::llvm::LogicalResult " ++ name ++
  "(\n    ::mlir::Attribute attr, ::llvm::StringRef attrName, llvm::function_ref<::mlir::InFlightDiagnostic()> emitError) \x7b\n  if (attr && !(" ++
  cond ++
  "))\n    return emitError() << \"attribute \x27\" << attrName\n        << \"\x27 failed to satisfy constraint: " ++
  desc ++
  "\";\n  return ::mlir::success();\n\x7d\nstatic ::llvm::LogicalResult " ++ name ++
  "(\n    ::mlir::Operation *op, ::mlir::Attribute attr, ::llvm::StringRef attrName) \x7b\n  return " ++
  name ++
  "(attr, attrName, [op]() \x7b\n    return op->emitOpError();\n  \x7d);\n\x7d\n"

/-- propConstraintCode with the four format arguments substituted. -/
def propConstraintCode (name cond desc interfaceType : String) : String :=
  "\n  static ::llvm::LogicalResult " ++ name ++ "(\n      " ++ interfaceType ++
  " prop, ::llvm::StringRef propName, llvm::function_ref<::mlir::InFlightDiagnostic()> emitError) \x7b\n    if (!(" ++
  cond ++
  "))\n      return emitError() << \"property \x27\" << propName\n          << \"\x27 failed to satisfy constraint: " ++
  desc ++
  "\";\n    return ::mlir::success();\n  \x7d\n  static ::llvm::LogicalResult " ++ name ++
  "(\n      ::mlir::Operation *op, " ++ interfaceType ++
  " prop, ::llvm::StringRef propName) \x7b\n    return " ++ name ++
  "(prop, propName, [op]() \x7b\n      return op->emitOpError();\n    \x7d);\n  \x7d\n  "

/-- successorConstraintCode with the three format arguments substituted. -/
def successorConstraintCode (name cond desc : String) : String :=
  "\nstatic ::llvm::LogicalResult " ++ name ++
  "(\n    ::mlir::Operation *op, ::mlir::Block *successor,\n    ::llvm::StringRef successorName, unsigned successorIndex) \x7b\n  if (!(" ++
  cond ++
  ")) \x7b\n    return op->emitOpError(\"successor #\") << successorIndex << \" (\x27\"\n        << successorName << \")\x27 failed to verify constraint: " ++
  desc ++ "\";\n  \x7d\n  return ::mlir::success();\n\x7d\n"

/-- regionConstraintCode with the three format arguments substituted. -/
def regionConstraintCode (name cond desc : String) : String :=
  "\nstatic ::llvm::LogicalResult " ++ name ++
  "(\n    ::mlir::Operation *op, ::mlir::Region &region, ::llvm::StringRef regionName,\n    unsigned regionIndex) \x7b\n  if (!(" ++
  cond ++
  ")) \x7b\n    return op->emitOpError(\"region #\") << regionIndex\n        << (regionName.empty() ? \" \" : \" (\x27\" + regionName + \"\x27) \")\n        << \"failed to verify constraint: " ++
  desc ++ "\";\n  \x7d\n  return ::mlir::success();\n\x7d\n"

/-- patternConstraintCode with the four format arguments substituted. -/
def patternConstraintCode (name cond desc param : String) : String :=
  "\nstatic ::llvm::LogicalResult " ++ name ++
  "(\n    ::mlir::PatternRewriter &rewriter, ::mlir::Operation *op, " ++ param ++
  ",\n    ::llvm::StringRef failureStr) \x7b\n  if (!(" ++ cond ++
  ")) \x7b\n    return rewriter.notifyMatchFailure(op, [&](::mlir::Diagnostic &diag) \x7b\n      diag << failureStr << \": " ++
  desc ++
  "\";\n    \x7d);\n  \x7d\n  return ::mlir::success();\n\x7d\n"

/-- StaticVerifierFunctionEmitter::emitConstraints: render one function
per registry entry, in registry order, with the self binding and the
enclosing-op binding substituted into the condition. -/
def emitConstraints (m : ConstraintMap) (selfName : String)
    (codeTemplate : String → String → String → String) : String :=
  let ctx : FmtContext := { selfName := some selfName, substs := [("_op", "*op")] }
  String.join (m.map fun it =>
    codeTemplate it.2 (tgfmt it.1.conditionTemplate ctx) (escapeString it.1.summary))

/-- StaticVerifierFunctionEmitter::emitTypeConstraints. -/
def StaticVerifierFunctionEmitter.emitTypeConstraints
    (st : StaticVerifierFunctionEmitter) : String :=
  emitConstraints st.typeConstraints "type" typeConstraintCode

/-- StaticVerifierFunctionEmitter::emitAttrConstraints. -/
def StaticVerifierFunctionEmitter.emitAttrConstraints
    (st : StaticVerifierFunctionEmitter) : String :=
  emitConstraints st.attrConstraints "attr" attrConstraintCode

/-- StaticVerifierFunctionEmitter::emitPropConstraints: like the generic
helper but also substitutes the interface type of the property. -/
def StaticVerifierFunctionEmitter.emitPropConstraints
    (st : StaticVerifierFunctionEmitter) : String :=
  let ctx : FmtContext := { selfName := some "prop", substs := [("_op", "*op")] }
  String.join (st.propConstraints.map fun it =>
    propConstraintCode it.2 (tgfmt it.1.conditionTemplate ctx)
      (escapeString it.1.summary) it.1.interfaceType)

/-- StaticVerifierFunctionEmitter::emitSuccessorConstraints. -/
def StaticVerifierFunctionEmitter.emitSuccessorConstraints
    (st : StaticVerifierFunctionEmitter) : String :=
  emitConstraints st.successorConstraints "successor" successorConstraintCode

/-- StaticVerifierFunctionEmitter::emitRegionConstraints. -/
def StaticVerifierFunctionEmitter.emitRegionConstraints
    (st : StaticVerifierFunctionEmitter) : String :=
  emitConstraints st.regionConstraints "region" regionConstraintCode

/-- Modelled from the spec: NamespaceEmitter (declared in
mlir/TableGen/CodeGenHelpers.h, not present under src/) wraps the emitted
text in a namespace block for the given declared namespace. -/
def namespaceWrap (ns body : String) : String :=
  "namespace " ++ ns ++ " \x7b\n" ++ body ++ "\x7d // namespace " ++ ns ++ "\n"

/-- StaticVerifierFunctionEmitter::emitOpConstraints: inside a namespace
block for the first op definition, emit type, attribute, property,
successor, then region constraint functions. An empty op list indexes out
of bounds in the source and is embedded as the none case. -/
def StaticVerifierFunctionEmitter.emitOpConstraints
    (st : StaticVerifierFunctionEmitter) (opDefs : List Operator) : Option String :=
  match opDefs with
  | [] => none
  | op0 :: _ =>
    some (namespaceWrap op0.cppNamespace
      (st.emitTypeConstraints ++ st.emitAttrConstraints ++ st.emitPropConstraints ++
        st.emitSuccessorConstraints ++ st.emitRegionConstraints))

/-- The binding used for pattern type blocks: self is the type, the
builder is the rewriter, the enclosing op reference is substituted. -/
def patternTypeCtx : FmtContext :=
  { selfName := some "type", substs := [("_op", "*op")], builderName := some "rewriter" }

/-- The binding used for pattern attribute blocks. -/
def patternAttrCtx : FmtContext :=
  { selfName := some "attr", substs := [("_op", "*op")], builderName := some "rewriter" }

/-- The binding used for pattern property blocks. -/
def patternPropCtx : FmtContext :=
  { selfName := some "prop", substs := [("_op", "*op")], builderName := some "rewriter" }

/-- One pattern block for a registered type constraint. -/
def patternTypeBlock (it : Constraint × String) : String :=
  patternConstraintCode it.2 (tgfmt it.1.conditionTemplate patternTypeCtx)
    (escapeString it.1.summary) "::mlir::Type type"

/-- One pattern block for a registered attribute constraint. -/
def patternAttrBlock (it : Constraint × String) : String :=
  patternConstraintCode it.2 (tgfmt it.1.conditionTemplate patternAttrCtx)
    (escapeString it.1.summary) "::mlir::Attribute attr"

/-- One pattern block for a registered property constraint: a constraint
with no declared interface type is templatized over a generic parameter
named T, with the generic declaration emitted first. -/
def patternPropBlock (it : Constraint × String) : String :=
  let interfaceType := if it.1.interfaceType = "" then "T" else it.1.interfaceType
  (if it.1.interfaceType = "" then "template <typename T>" else "") ++
    patternConstraintCode it.2 (tgfmt it.1.conditionTemplate patternPropCtx)
      (escapeString it.1.summary) (interfaceType ++ " prop")

/-- The private StaticVerifierFunctionEmitter::emitPatternConstraints
printer: type blocks, then attribute blocks, then property blocks, each
registry in insertion order. -/
def StaticVerifierFunctionEmitter.emitPatternConstraintsOut
    (st : StaticVerifierFunctionEmitter) : String :=
  String.join (st.typeConstraints.map patternTypeBlock) ++
    String.join (st.attrConstraints.map patternAttrBlock) ++
    String.join (st.propConstraints.map patternPropBlock)

/-- The public StaticVerifierFunctionEmitter::emitPatternConstraints:
collect the leaves, then print; returns the updated state and the text. -/
def StaticVerifierFunctionEmitter.emitPatternConstraints
    (st : StaticVerifierFunctionEmitter) (constraints : List DagLeaf) :
    StaticVerifierFunctionEmitter × String :=
  let st2 := st.collectPatternConstraints constraints
  (st2, st2.emitPatternConstraintsOut)

/-! Helper lemmas about the registry operations. -/

theorem lookupConstraint_append_none {m : ConstraintMap} {c : Constraint}
    (l : ConstraintMap) (h : lookupConstraint m c = none) :
    lookupConstraint (m ++ l) c = lookupConstraint l c := by
  induction m with
  | nil => rfl
  | cons e rest ih =>
    by_cases he : e.1 = c
    · simp [lookupConstraint, he] at h
    · simp only [lookupConstraint, he, if_false, List.cons_append] at h ⊢
      exact ih h

theorem lookupConstraint_collect_self (lbl kind : String) (m : ConstraintMap)
    (c : Constraint) :
    (lookupConstraint (collectConstraint lbl m kind c) c).isSome = true := by
  unfold collectConstraint
  cases h : lookupConstraint m c with
  | some n => simp [h]
  | none =>
    rw [lookupConstraint_append_none _ h]
    simp [lookupConstraint]

theorem collectConstraint_of_some {m : ConstraintMap} {c : Constraint}
    (lbl kind : String) (h : (lookupConstraint m c).isSome = true) :
    collectConstraint lbl m kind c = m := by
  unfold collectConstraint
  cases hl : lookupConstraint m c with
  | some n => rfl
  | none => rw [hl] at h; simp at h

theorem collectConstraint_of_none {m : ConstraintMap} {c : Constraint}
    (lbl kind : String) (h : lookupConstraint m c = none) :
    collectConstraint lbl m kind c =
      m ++ [(c, getUniqueName lbl kind (m.length + 1))] := by
  unfold collectConstraint
  rw [h]

theorem lookupConstraint_collect_none {m : ConstraintMap} {c d : Constraint}
    (lbl kind : String) (h : lookupConstraint m c = none) (hne : d ≠ c) :
    lookupConstraint (collectConstraint lbl m kind d) c = none := by
  unfold collectConstraint
  cases hl : lookupConstraint m d with
  | some n => exact h
  | none =>
    rw [lookupConstraint_append_none _ h]
    simp [lookupConstraint, hne]

/-! Injectivity of the decimal rendering used in generated names. -/

/-- Value of a most-significant-first decimal digit list. -/
def decVal (l : List Char) : Nat :=
  l.foldl (fun acc c => acc * 10 + (c.toNat - 48)) 0

theorem decVal_append_singleton (l : List Char) (c : Char) :
    decVal (l ++ [c]) = decVal l * 10 + (c.toNat - 48) := by
  simp [decVal, List.foldl_append]

theorem decDigitChar_toNat {n : Nat} (h : n < 10) :
    (decDigitChar n).toNat = 48 + n := by
  interval_cases n <;> rfl

theorem decVal_natDecAux : ∀ fuel n : Nat, n ≤ fuel →
    decVal (natDecAux (fuel + 1) n) = n := by
  intro fuel
  induction fuel with
  | zero =>
    intro n hn
    have h0 : n = 0 := Nat.le_zero.mp hn
    subst h0
    rfl
  | succ fuel ih =>
    intro n hn
    by_cases h10 : n < 10
    · simp only [natDecAux, h10, if_true]
      simp [decVal, decDigitChar_toNat h10]
    · have hpos : 0 < n := by omega
      have hdiv : n / 10 < n := Nat.div_lt_self hpos (by omega)
      have hle : n / 10 ≤ fuel := by omega
      have hstep : natDecAux (fuel + 1 + 1) n =
          if n < 10 then [decDigitChar n]
          else natDecAux (fuel + 1) (n / 10) ++ [decDigitChar (n % 10)] := rfl
      rw [hstep, if_neg h10, decVal_append_singleton, ih (n / 10) hle,
        decDigitChar_toNat (Nat.mod_lt n (by omega))]
      omega

theorem natDec_injective {a b : Nat} (h : natDec a = natDec b) : a = b := by
  have hd : natDecAux (a + 1) a = natDecAux (b + 1) b := by
    have := congrArg String.data h
    simpa [natDec] using this
  have ha := decVal_natDecAux a a (Nat.le_refl a)
  have hb := decVal_natDecAux b b (Nat.le_refl b)
  rw [← ha, ← hb, hd]

theorem getUniqueName_index_injective (lbl kind : String) {i j : Nat}
    (h : getUniqueName lbl kind i = getUniqueName lbl kind j) : i = j := by
  unfold getUniqueName at h
  have hd := congrArg String.data h
  simp only [String.data_append, List.append_assoc] at hd
  have h1 := List.append_cancel_left hd
  have h2 := List.append_cancel_left h1
  have h3 := List.append_cancel_left h2
  have h4 := List.append_cancel_left h3
  exact natDec_injective (String.ext h4)

/-! Invariant: in every registry, the entry at position i carries the
generated name with ordinal i + 1, so ordinals are dense starting at 1. -/

/-- Position i of the map holds the name with ordinal i + 1. -/
def goodMap (lbl kind : String) (m : ConstraintMap) : Prop :=
  ∀ i (h : i < m.length), (m.get ⟨i, h⟩).2 = getUniqueName lbl kind (i + 1)

theorem goodMap_nil (lbl kind : String) : goodMap lbl kind [] := by
  intro i h
  simp at h

theorem goodMap_collectConstraint {lbl kind : String} {m : ConstraintMap}
    (c : Constraint) (h : goodMap lbl kind m) :
    goodMap lbl kind (collectConstraint lbl m kind c) := by
  unfold collectConstraint
  cases hl : lookupConstraint m c with
  | some n => exact h
  | none =>
    intro i hi
    rcases Nat.lt_or_ge i m.length with hlt | hge
    · have : (m ++ [(c, getUniqueName lbl kind (m.length + 1))]).get
          ⟨i, hi⟩ = m.get ⟨i, hlt⟩ := by
        simp [List.get_eq_getElem, List.getElem_append_left hlt]
      rw [this]
      exact h i hlt
    · have hlen : (m ++ [(c, getUniqueName lbl kind (m.length + 1))]).length
          = m.length + 1 := by simp
      have hieq : i = m.length := by
        rw [hlen] at hi
        omega
      subst hieq
      have : (m ++ [(c, getUniqueName lbl kind (m.length + 1))]).get ⟨m.length, hi⟩
          = (c, getUniqueName lbl kind (m.length + 1)) := by
        simp [List.get_eq_getElem]
      rw [this]

theorem goodMap_fold {lbl kind : String} {m : ConstraintMap} {α : Type}
    (step : ConstraintMap → α → ConstraintMap)
    (hstep : ∀ m a, goodMap lbl kind m → goodMap lbl kind (step m a))
    (l : List α) (h : goodMap lbl kind m) :
    goodMap lbl kind (l.foldl step m) := by
  induction l generalizing m with
  | nil => exact h
  | cons a t ih => exact ih (hstep m a h)

theorem goodMap_collectTypeConstraintsFrom {lbl : String} {m : ConstraintMap}
    (values : List Constraint) (h : goodMap lbl "type" m) :
    goodMap lbl "type" (collectTypeConstraintsFrom lbl m values) := by
  refine goodMap_fold _ ?_ values h
  intro m v hm
  show goodMap lbl "type" (if hasPredicate v = true then collectConstraint lbl m "type" v else m)
  by_cases hp : hasPredicate v = true
  · rw [if_pos hp]; exact goodMap_collectConstraint v hm
  · rw [if_neg hp]; exact hm

theorem goodMap_collectAttrConstraintsFrom {lbl : String} {m : ConstraintMap}
    (attrs : List Constraint) (h : goodMap lbl "attr" m) :
    goodMap lbl "attr" (collectAttrConstraintsFrom lbl m attrs) := by
  refine goodMap_fold _ ?_ attrs h
  intro m a hm
  show goodMap lbl "attr"
    (if (!a.predIsNull && !a.isDerivedAttr && canUniqueAttrConstraint a) = true then
      collectConstraint lbl m "attr" a else m)
  by_cases hp : (!a.predIsNull && !a.isDerivedAttr && canUniqueAttrConstraint a) = true
  · rw [if_pos hp]; exact goodMap_collectConstraint a hm
  · rw [if_neg hp]; exact hm

theorem goodMap_collectPropConstraintsFrom {lbl : String} {m : ConstraintMap}
    (props : List Constraint) (h : goodMap lbl "prop" m) :
    goodMap lbl "prop" (collectPropConstraintsFrom lbl m props) := by
  refine goodMap_fold _ ?_ props h
  intro m p hm
  show goodMap lbl "prop"
    (if (!p.predIsNull && canUniquePropConstraint p) = true then
      collectConstraint lbl m "prop" p else m)
  by_cases hp : (!p.predIsNull && canUniquePropConstraint p) = true
  · rw [if_pos hp]; exact goodMap_collectConstraint p hm
  · rw [if_neg hp]; exact hm

theorem goodMap_collectSuccessorConstraintsFrom {lbl : String} {m : ConstraintMap}
    (succs : List Constraint) (h : goodMap lbl "successor" m) :
    goodMap lbl "successor" (collectSuccessorConstraintsFrom lbl m succs) := by
  refine goodMap_fold _ ?_ succs h
  intro m s hm
  show goodMap lbl "successor"
    (if (!s.predIsNull) = true then collectConstraint lbl m "successor" s else m)
  by_cases hp : (!s.predIsNull) = true
  · rw [if_pos hp]; exact goodMap_collectConstraint s hm
  · rw [if_neg hp]; exact hm

theorem goodMap_collectRegionConstraintsFrom {lbl : String} {m : ConstraintMap}
    (regions : List Constraint) (h : goodMap lbl "region" m) :
    goodMap lbl "region" (collectRegionConstraintsFrom lbl m regions) := by
  refine goodMap_fold _ ?_ regions h
  intro m r hm
  show goodMap lbl "region"
    (if (!r.predIsNull) = true then collectConstraint lbl m "region" r else m)
  by_cases hp : (!r.predIsNull) = true
  · rw [if_pos hp]; exact goodMap_collectConstraint r hm
  · rw [if_neg hp]; exact hm

/-- States an emitter instance can actually be in: freshly constructed, or
the result of a collection pass over op definitions or pattern leaves. -/
inductive Reachable : StaticVerifierFunctionEmitter → Prop where
  | init (inputFilename tag : String) :
      Reachable (mkStaticVerifierFunctionEmitter inputFilename tag)
  | ops (st : StaticVerifierFunctionEmitter) (opDefs : List Operator) :
      Reachable st → Reachable (st.collectOpConstraints opDefs)
  | pats (st : StaticVerifierFunctionEmitter) (leaves : List DagLeaf) :
      Reachable st → Reachable (st.collectPatternConstraints leaves)

/-- All five registries of a reachable state satisfy the density
invariant for their kind. -/
def goodState (st : StaticVerifierFunctionEmitter) : Prop :=
  goodMap st.uniqueOutputLabel "type" st.typeConstraints ∧
  goodMap st.uniqueOutputLabel "attr" st.attrConstraints ∧
  goodMap st.uniqueOutputLabel "prop" st.propConstraints ∧
  goodMap st.uniqueOutputLabel "successor" st.successorConstraints ∧
  goodMap st.uniqueOutputLabel "region" st.regionConstraints

theorem goodState_collectOpStep {st : StaticVerifierFunctionEmitter}
    (op : Operator) (h : goodState st) : goodState (collectOpStep st op) := by
  obtain ⟨h1, h2, h3, h4, h5⟩ := h
  exact ⟨goodMap_collectTypeConstraintsFrom op.results
      (goodMap_collectTypeConstraintsFrom op.operands h1),
    goodMap_collectAttrConstraintsFrom op.attributes h2,
    goodMap_collectPropConstraintsFrom op.properties h3,
    goodMap_collectSuccessorConstraintsFrom op.successors h4,
    goodMap_collectRegionConstraintsFrom op.regions h5⟩

theorem goodState_collectPatternStep {st : StaticVerifierFunctionEmitter}
    (leaf : DagLeaf) (h : goodState st) : goodState (collectPatternStep st leaf) := by
  obtain ⟨h1, h2, h3, h4, h5⟩ := h
  cases leaf with
  | operandMatcher c => exact ⟨goodMap_collectConstraint c h1, h2, h3, h4, h5⟩
  | attrMatcher c => exact ⟨h1, goodMap_collectConstraint c h2, h3, h4, h5⟩
  | propMatcher c => exact ⟨h1, h2, goodMap_collectConstraint c h3, h4, h5⟩

theorem goodState_fold {α : Type} (step : StaticVerifierFunctionEmitter → α →
      StaticVerifierFunctionEmitter)
    (hstep : ∀ s a, goodState s → goodState (step s a)) (l : List α) :
    ∀ s, goodState s → goodState (l.foldl step s) := by
  induction l with
  | nil => intro s h; exact h
  | cons a t ih => intro s h; exact ih (step s a) (hstep s a h)

theorem goodState_reachable {st : StaticVerifierFunctionEmitter}
    (h : Reachable st) : goodState st := by
  induction h with
  | init f t =>
    exact ⟨goodMap_nil _ _, goodMap_nil _ _, goodMap_nil _ _, goodMap_nil _ _,
      goodMap_nil _ _⟩
  | ops st opDefs _ ih =>
    exact goodState_fold collectOpStep (fun s a => goodState_collectOpStep a) opDefs st ih
  | pats st leaves _ ih =>
    exact goodState_fold collectPatternStep (fun s a => goodState_collectPatternStep a)
      leaves st ih

/-- In a registry satisfying the density invariant, entries with distinct
keys carry distinct generated names. -/
theorem goodMap_names_distinct {lbl kind : String} {m : ConstraintMap}
    (hg : goodMap lbl kind m) {a b : Constraint} {na nb : String}
    (ha : (a, na) ∈ m) (hb : (b, nb) ∈ m) (hab : a ≠ b) : na ≠ nb := by
  obtain ⟨⟨i, hi⟩, hga⟩ := List.mem_iff_get.mp ha
  obtain ⟨⟨j, hj⟩, hgb⟩ := List.mem_iff_get.mp hb
  have hna : na = getUniqueName lbl kind (i + 1) := by
    have := hg i hi
    rw [hga] at this
    exact this
  have hnb : nb = getUniqueName lbl kind (j + 1) := by
    have := hg j hj
    rw [hgb] at this
    exact this
  have hij : i ≠ j := by
    intro he
    subst he
    rw [hga] at hgb
    exact hab (congrArg Prod.fst hgb)
  rw [hna, hnb]
  intro hcontra
  have hinj := getUniqueName_index_injective lbl kind hcontra
  omega

/-! Sample constraint values used to instantiate witness theorems. -/

/-- A sample type-style constraint. -/
def sampleA : Constraint :=
  { predIsNull := false,
    conditionTemplate := [TgTok.lit "isGood(", TgTok.ph "_self", TgTok.lit ")"],
    summary := "good", interfaceType := "", isDerivedAttr := false }

/-- A second sample constraint, distinct from sampleA. -/
def sampleB : Constraint :=
  { predIsNull := false,
    conditionTemplate := [TgTok.lit "isBetter(", TgTok.ph "_self", TgTok.lit ")"],
    summary := "better", interfaceType := "", isDerivedAttr := false }

/-- A sample attribute constraint whose condition references a placeholder
outside the fixed binding, so substitution leaves the marker. -/
def sampleMarker : Constraint :=
  { predIsNull := false, conditionTemplate := [TgTok.ph "_operand0"],
    summary := "references an operand", interfaceType := "", isDerivedAttr := false }

/-- A sample property constraint with no declared interface type. -/
def samplePropGeneric : Constraint :=
  { predIsNull := false,
    conditionTemplate := [TgTok.lit "check(", TgTok.ph "_self", TgTok.lit ")"],
    summary := "generic prop", interfaceType := "", isDerivedAttr := false }

/-! The claims. -/

/-- C1: registration is idempotent. Registering a constraint a second
time into the same kind map leaves the registry unchanged, so the second
registration returns the same generated name as the first and the map
does not grow; after the first registration the constraint is present. -/
theorem claim1_registration_idempotent (lbl kind : String) (m : ConstraintMap)
    (c : Constraint) :
    collectConstraint lbl (collectConstraint lbl m kind c) kind c =
      collectConstraint lbl m kind c ∧
    (lookupConstraint (collectConstraint lbl m kind c) c).isSome = true := by
  refine ⟨?_, lookupConstraint_collect_self lbl kind m c⟩
  exact collectConstraint_of_some lbl kind (lookupConstraint_collect_self lbl kind m c)

/-- C2 counterexample: the first registration into an empty map (size 0
before the insertion) generates the name with ordinal 1, not the name
with ordinal 0, so the ordinal is not the map size before insertion. -/
theorem claim2_counterexample :
    collectConstraint "L" [] "type" sampleA = [(sampleA, getUniqueName "L" "type" 1)] ∧
    ([] : ConstraintMap).length = 0 ∧
    getUniqueName "L" "type" 1 ≠ getUniqueName "L" "type" 0 := by
  exact ⟨rfl, rfl, by decide⟩

/-- C2 (amended): a fresh registration generates the name of the claimed
form whose ordinal is the map size after the insertion (one more than the
size before), and in every reachable emitter state each registry entry at
position i carries the ordinal i + 1, so per-kind ordinals are dense
starting at 1. -/
theorem claim2_name_form_and_ordinal (lbl kind : String) (m : ConstraintMap)
    (c : Constraint) (h : lookupConstraint m c = none) :
    collectConstraint lbl m kind c =
      m ++ [(c, getUniqueName lbl kind (m.length + 1))] ∧
    getUniqueName lbl kind (m.length + 1) =
      "__mlir_ods_local_" ++ kind ++ "_constraint_" ++ lbl ++ natDec (m.length + 1) ∧
    (∀ st : StaticVerifierFunctionEmitter, Reachable st → goodState st) := by
  exact ⟨collectConstraint_of_none lbl kind h, rfl, fun st hst => goodState_reachable hst⟩

/-- C2 witness: the amended statement instantiated at an empty map. -/
theorem claim2_witness :
    collectConstraint "L" [] "type" sampleA = [(sampleA, getUniqueName "L" "type" 1)] := by
  exact (claim2_name_form_and_ordinal "L" "type" [] sampleA (by decide)).1

/-- C3: within one emitter instance, in every reachable state, distinct
registered constraints of the same kind carry distinct generated names,
for each of the five kinds. -/
theorem claim3_generated_names_distinct {st : StaticVerifierFunctionEmitter}
    (hst : Reachable st) :
    (∀ a b na nb, (a, na) ∈ st.typeConstraints → (b, nb) ∈ st.typeConstraints →
      a ≠ b → na ≠ nb) ∧
    (∀ a b na nb, (a, na) ∈ st.attrConstraints → (b, nb) ∈ st.attrConstraints →
      a ≠ b → na ≠ nb) ∧
    (∀ a b na nb, (a, na) ∈ st.propConstraints → (b, nb) ∈ st.propConstraints →
      a ≠ b → na ≠ nb) ∧
    (∀ a b na nb, (a, na) ∈ st.successorConstraints → (b, nb) ∈ st.successorConstraints →
      a ≠ b → na ≠ nb) ∧
    (∀ a b na nb, (a, na) ∈ st.regionConstraints → (b, nb) ∈ st.regionConstraints →
      a ≠ b → na ≠ nb) := by
  obtain ⟨h1, h2, h3, h4, h5⟩ := goodState_reachable hst
  exact ⟨fun a b na nb ha hb hab => goodMap_names_distinct h1 ha hb hab,
    fun a b na nb ha hb hab => goodMap_names_distinct h2 ha hb hab,
    fun a b na nb ha hb hab => goodMap_names_distinct h3 ha hb hab,
    fun a b na nb ha hb hab => goodMap_names_distinct h4 ha hb hab,
    fun a b na nb ha hb hab => goodMap_names_distinct h5 ha hb hab⟩

/-- C3 witness: two distinct constraints registered through a pattern
pass of one concrete emitter receive distinct names. -/
theorem claim3_witness :
    "__mlir_ods_local_type_constraint_tf1" ≠ "__mlir_ods_local_type_constraint_tf2" := by
  exact (claim3_generated_names_distinct
      (Reachable.pats (mkStaticVerifierFunctionEmitter "f.td" "t")
        [DagLeaf.operandMatcher sampleA, DagLeaf.operandMatcher sampleB]
        (Reachable.init "f.td" "t"))).1
    sampleA sampleB "__mlir_ods_local_type_constraint_tf1"
    "__mlir_ods_local_type_constraint_tf2" (by decide) (by decide) (by decide)

/-- C4: a property constraint is eligible for uniquing exactly when the
substitution of self to prop and op to *op leaves no unresolved-placeholder
marker, the substituted condition is not the literal "true", and a
non-empty interface type is declared. -/
theorem claim4_prop_eligibility (prop : Constraint) :
    canUniquePropConstraint prop = true ↔
      (strContains
          (tgfmt prop.conditionTemplate
            { selfName := some "prop", substs := [("_op", "*op")] })
          noSubstMarker = false ∧
        tgfmt prop.conditionTemplate
          { selfName := some "prop", substs := [("_op", "*op")] } ≠ "true" ∧
        prop.interfaceType ≠ "") := by
  unfold canUniquePropConstraint
  simp only [Bool.and_eq_true, Bool.not_eq_true', bne_iff_ne, ne_eq, beq_iff_eq,
    beq_eq_false_iff_ne]
  tauto

/-- Support: the attribute loop of op collection never introduces a
constraint that fails the attribute eligibility filter. -/
theorem lookup_collectAttrFrom_none {lbl : String} {m : ConstraintMap}
    {c : Constraint} (attrs : List Constraint)
    (hc : canUniqueAttrConstraint c = false) (h : lookupConstraint m c = none) :
    lookupConstraint (collectAttrConstraintsFrom lbl m attrs) c = none := by
  induction attrs generalizing m with
  | nil => exact h
  | cons a rest ih =>
    have hstep : collectAttrConstraintsFrom lbl m (a :: rest) =
        collectAttrConstraintsFrom lbl
          (if (!a.predIsNull && !a.isDerivedAttr && canUniqueAttrConstraint a) = true
            then collectConstraint lbl m "attr" a else m) rest := rfl
    rw [hstep]
    by_cases hcond : (!a.predIsNull && !a.isDerivedAttr && canUniqueAttrConstraint a) = true
    · rw [if_pos hcond]
      refine ih ?_
      have hne : a ≠ c := by
        intro he
        have ha : canUniqueAttrConstraint a = true := by
          simp only [Bool.and_eq_true] at hcond
          exact hcond.2
        rw [he, hc] at ha
        cases ha
      exact lookupConstraint_collect_none lbl "attr" h hne
    · rw [if_neg hcond]
      exact ih h

/-- Support: op collection as a whole never introduces an ineligible
attribute constraint into the attribute registry. -/
theorem lookup_attr_none_collectOps {c : Constraint}
    (hc : canUniqueAttrConstraint c = false) (ops : List Operator) :
    ∀ st : StaticVerifierFunctionEmitter, lookupConstraint st.attrConstraints c = none →
      lookupConstraint (st.collectOpConstraints ops).attrConstraints c = none := by
  induction ops with
  | nil => intro st h; exact h
  | cons op rest ih =>
    intro st h
    have hstep : st.collectOpConstraints (op :: rest) =
        (collectOpStep st op).collectOpConstraints rest := rfl
    rw [hstep]
    refine ih (collectOpStep st op) ?_
    show lookupConstraint
      (collectAttrConstraintsFrom st.uniqueOutputLabel st.attrConstraints op.attributes)
      c = none
    exact lookup_collectAttrFrom_none op.attributes hc h

/-- C5: an attribute constraint whose substituted condition still contains
the unresolved-placeholder marker is never present in the attribute
registry after op-definition collection on a fresh emitter, and the
fallible attribute lookup for it returns none. -/
theorem claim5_ineligible_attr_absent (f t : String) (ops : List Operator)
    (c : Constraint)
    (h : strContains
        (tgfmt c.conditionTemplate
          { selfName := some "attr", substs := [("_op", "*op")] })
        noSubstMarker = true) :
    lookupConstraint
      ((mkStaticVerifierFunctionEmitter f t).collectOpConstraints ops).attrConstraints
      c = none ∧
    ((mkStaticVerifierFunctionEmitter f t).collectOpConstraints ops).getAttrConstraintFn
      c = none := by
  have hcu : canUniqueAttrConstraint c = false := by
    show (!strContains
      (tgfmt c.conditionTemplate { selfName := some "attr", substs := [("_op", "*op")] })
      noSubstMarker) = false
    rw [h]
    rfl
  have hnone := lookup_attr_none_collectOps hcu ops
    (mkStaticVerifierFunctionEmitter f t) rfl
  exact ⟨hnone, hnone⟩

/-- C5 witness: a concrete operand-referencing attribute constraint on a
concrete op stays out of the attribute registry. -/
theorem claim5_witness :
    ((mkStaticVerifierFunctionEmitter "f.td" "t").collectOpConstraints
        [{ cppNamespace := "ns", operands := [], results := [], attributes := [sampleMarker],
           properties := [], successors := [], regions := [] }]).getAttrConstraintFn
      sampleMarker = none := by
  exact (claim5_ineligible_attr_absent "f" "t"
    [{ cppNamespace := "ns", operands := [], results := [], attributes := [sampleMarker],
       properties := [], successors := [], regions := [] }] sampleMarker (by decide)).2

/-- C6: the lookup surface is asymmetric. On a constraint missing from the
corresponding registry, the type, successor and region lookups hit the
assert (embedded as the error case, never yielding a value), while the
attribute and property lookups return none. -/
theorem claim6_lookup_asymmetry (st : StaticVerifierFunctionEmitter) (c : Constraint)
    (h1 : lookupConstraint st.typeConstraints c = none)
    (h2 : lookupConstraint st.successorConstraints c = none)
    (h3 : lookupConstraint st.regionConstraints c = none)
    (h4 : lookupConstraint st.attrConstraints c = none)
    (h5 : lookupConstraint st.propConstraints c = none) :
    st.getTypeConstraintFn c = Except.error "expected to find a type constraint" ∧
    (∀ n, st.getTypeConstraintFn c ≠ Except.ok n) ∧
    st.getSuccessorConstraintFn c = Except.error "expected to find a sucessor constraint" ∧
    (∀ n, st.getSuccessorConstraintFn c ≠ Except.ok n) ∧
    st.getRegionConstraintFn c = Except.error "expected to find a region constraint" ∧
    (∀ n, st.getRegionConstraintFn c ≠ Except.ok n) ∧
    st.getAttrConstraintFn c = none ∧
    st.getPropConstraintFn c = none := by
  unfold StaticVerifierFunctionEmitter.getTypeConstraintFn
    StaticVerifierFunctionEmitter.getSuccessorConstraintFn
    StaticVerifierFunctionEmitter.getRegionConstraintFn
    StaticVerifierFunctionEmitter.getAttrConstraintFn
    StaticVerifierFunctionEmitter.getPropConstraintFn
  rw [h1, h2, h3, h4, h5]
  refine ⟨rfl, ?_, rfl, ?_, rfl, ?_, rfl, rfl⟩ <;> intro n hcontra <;> cases hcontra

/-- C6 witness: the asymmetry at a freshly constructed emitter. -/
theorem claim6_witness :
    (mkStaticVerifierFunctionEmitter "f.td" "t").getTypeConstraintFn sampleA =
      Except.error "expected to find a type constraint" ∧
    (mkStaticVerifierFunctionEmitter "f.td" "t").getAttrConstraintFn sampleA = none := by
  have h := claim6_lookup_asymmetry (mkStaticVerifierFunctionEmitter "f.td" "t") sampleA
    rfl rfl rfl rfl rfl
  exact ⟨h.1, h.2.2.2.2.2.2.1⟩

/-- A concrete op definition with one predicated operand constraint. -/
def sampleOpA : Operator :=
  { cppNamespace := "ns", operands := [sampleA], results := [], attributes := [],
    properties := [], successors := [], regions := [] }

/-- Support: with the same kind and the same tag, labels ending in foo
and bar can never produce the same generated name, whatever the ordinals. -/
theorem getUniqueName_foo_bar_same_kind_ne (k tag : String) (i j : Nat) :
    getUniqueName (tag ++ "foo") k i ≠ getUniqueName (tag ++ "bar") k j := by
  intro h
  have hd := congrArg String.data h
  simp only [getUniqueName, String.data_append, List.append_assoc] at hd
  have h1 := List.append_cancel_left hd
  have h2 := List.append_cancel_left h1
  have h3 := List.append_cancel_left h2
  have h4 := List.append_cancel_left h3
  simp only [List.cons_append] at h4
  injection h4 with h5 _
  exact absurd h5 (by decide)

/-- Support: generated names for kinds whose first characters differ are
always distinct, whatever the labels and ordinals. -/
theorem getUniqueName_ne_of_kind_headchar {k1 k2 : String} (l1 l2 : String)
    (i j : Nat) (c1 c2 : Char) (t1 t2 : List Char) (hk1 : k1.data = c1 :: t1)
    (hk2 : k2.data = c2 :: t2) (hne : c1 ≠ c2) :
    getUniqueName l1 k1 i ≠ getUniqueName l2 k2 j := by
  intro h
  have hd := congrArg String.data h
  simp only [getUniqueName, String.data_append, List.append_assoc] at hd
  have h1 := List.append_cancel_left hd
  rw [hk1, hk2] at h1
  simp only [List.cons_append] at h1
  injection h1 with h2 _
  exact hne h2

/-- C7 counterexample: the input files a.b.td and a2Eb.td have different
base names, yet hexadecimal sanitization maps both base names to the same
output-scope label, so the two emitter instances assign the very same
generated name to their first registered type constraint. -/
theorem claim7_counterexample :
    consumeBackTd (pathFilename "a.b.td") ≠ consumeBackTd (pathFilename "a2Eb.td") ∧
    getUniqueOutputLabel "a.b.td" "" = getUniqueOutputLabel "a2Eb.td" "" ∧
    lookupConstraint
      ((mkStaticVerifierFunctionEmitter "a.b.td" "").collectOpConstraints
        [sampleOpA]).typeConstraints sampleA =
      some "__mlir_ods_local_type_constraint_a2Eb1" ∧
    lookupConstraint
      ((mkStaticVerifierFunctionEmitter "a2Eb.td" "").collectOpConstraints
        [sampleOpA]).typeConstraints sampleA =
      some "__mlir_ods_local_type_constraint_a2Eb1" := by
  exact ⟨by decide, by decide, by decide, by decide⟩

/-- C7 (amended): emitter instances built from input files foo.td and
bar.td with the same tag never produce overlapping generated names, for
any of the five constraint kinds and any ordinals. (For arbitrary
distinct base names the guarantee fails, because hexadecimal
sanitization can map different base names to one label.) -/
theorem claim7_foo_bar_no_collision (tag k1 k2 : String) (i j : Nat)
    (h1 : k1 ∈ ["type", "attr", "prop", "successor", "region"])
    (h2 : k2 ∈ ["type", "attr", "prop", "successor", "region"]) :
    getUniqueName (getUniqueOutputLabel "foo.td" tag) k1 i ≠
      getUniqueName (getUniqueOutputLabel "bar.td" tag) k2 j := by
  rw [show getUniqueOutputLabel "foo.td" tag = tag ++ "foo" from rfl,
    show getUniqueOutputLabel "bar.td" tag = tag ++ "bar" from rfl]
  fin_cases h1 <;> fin_cases h2 <;>
    first
      | exact getUniqueName_foo_bar_same_kind_ne _ tag i j
      | exact getUniqueName_ne_of_kind_headchar _ _ i j _ _ _ _ rfl rfl (by decide)

/-- C7 witness: the amended statement at one concrete pair of kinds and
ordinals. -/
theorem claim7_witness :
    getUniqueName (getUniqueOutputLabel "foo.td" "t") "type" 1 ≠
      getUniqueName (getUniqueOutputLabel "bar.td" "t") "attr" 2 := by
  exact claim7_foo_bar_no_collision "t" "type" "attr" 1 2 (by decide) (by decide)

/-- C8: one emitOpConstraints call wraps its whole output in a namespace
block for the first op definition and produces, in order, all type
routines, then attribute, property, successor and region routines, each
kind rendered from its registry in insertion order. -/
theorem claim8_emitOp_order (st : StaticVerifierFunctionEmitter) (op0 : Operator)
    (rest : List Operator) :
    st.emitOpConstraints (op0 :: rest) =
      some (namespaceWrap op0.cppNamespace
        (String.join (st.typeConstraints.map fun it =>
            typeConstraintCode it.2
              (tgfmt it.1.conditionTemplate
                { selfName := some "type", substs := [("_op", "*op")] })
              (escapeString it.1.summary)) ++
          String.join (st.attrConstraints.map fun it =>
            attrConstraintCode it.2
              (tgfmt it.1.conditionTemplate
                { selfName := some "attr", substs := [("_op", "*op")] })
              (escapeString it.1.summary)) ++
          String.join (st.propConstraints.map fun it =>
            propConstraintCode it.2
              (tgfmt it.1.conditionTemplate
                { selfName := some "prop", substs := [("_op", "*op")] })
              (escapeString it.1.summary) it.1.interfaceType) ++
          String.join (st.successorConstraints.map fun it =>
            successorConstraintCode it.2
              (tgfmt it.1.conditionTemplate
                { selfName := some "successor", substs := [("_op", "*op")] })
              (escapeString it.1.summary)) ++
          String.join (st.regionConstraints.map fun it =>
            regionConstraintCode it.2
              (tgfmt it.1.conditionTemplate
                { selfName := some "region", substs := [("_op", "*op")] })
              (escapeString it.1.summary)))) := rfl

/-- Support: the pattern block of a property constraint with no declared
interface type is the generic-declaration line followed by the routine
with the generic parameter T standing in for the interface type. -/
theorem patternPropBlock_of_no_interface {c : Constraint} (n : String)
    (hi : c.interfaceType = "") :
    patternPropBlock (c, n) =
      "template <typename T>" ++
        patternConstraintCode n (tgfmt c.conditionTemplate patternPropCtx)
          (escapeString c.summary) "T prop" := by
  unfold patternPropBlock
  simp only [hi]
  rfl

/-- C9: a registered property constraint with no declared interface type
is rendered by pattern emission as exactly one block (its registry entry
is unique) consisting of the generic-type declaration line and the
routine whose receiver parameter uses the generic name T; pattern output
is the concatenation of the per-entry blocks in registry order. -/
theorem claim9_prop_generic_fallback (st : StaticVerifierFunctionEmitter)
    (c : Constraint) (n : String) (hm : (c, n) ∈ st.propConstraints)
    (hi : c.interfaceType = "")
    (hnd : (st.propConstraints.map Prod.fst).Nodup) :
    patternPropBlock (c, n) =
      "template <typename T>" ++
        patternConstraintCode n (tgfmt c.conditionTemplate patternPropCtx)
          (escapeString c.summary) "T prop" ∧
    (st.propConstraints.filter fun e => decide (e.1 = c)).length = 1 ∧
    st.emitPatternConstraintsOut =
      String.join (st.typeConstraints.map patternTypeBlock) ++
        String.join (st.attrConstraints.map patternAttrBlock) ++
        String.join (st.propConstraints.map patternPropBlock) := by
  refine ⟨patternPropBlock_of_no_interface n hi, ?_, rfl⟩
  have hc : c ∈ st.propConstraints.map Prod.fst := List.mem_map_of_mem Prod.fst hm
  have hcount : (st.propConstraints.map Prod.fst).count c = 1 :=
    List.count_eq_one_of_mem hnd hc
  calc (st.propConstraints.filter fun e => decide (e.1 = c)).length
      = List.countP (fun e => decide (e.1 = c)) st.propConstraints :=
        (List.countP_eq_length_filter _ _).symm
    _ = (st.propConstraints.map Prod.fst).count c := by
        simp only [List.count, List.countP_map]
        rfl
    _ = 1 := hcount

/-- C9 witness: a concrete interface-type-free property constraint
registered through a pattern pass. -/
theorem claim9_witness :
    patternPropBlock (samplePropGeneric, "__mlir_ods_local_prop_constraint_tf1") =
      "template <typename T>" ++
        patternConstraintCode "__mlir_ods_local_prop_constraint_tf1"
          (tgfmt samplePropGeneric.conditionTemplate patternPropCtx)
          (escapeString samplePropGeneric.summary) "T prop" := by
  exact (claim9_prop_generic_fallback
    ((mkStaticVerifierFunctionEmitter "f.td" "t").collectPatternConstraints
      [DagLeaf.propMatcher samplePropGeneric])
    samplePropGeneric "__mlir_ods_local_prop_constraint_tf1"
    (by decide) (by decide) (by decide)).1

/-- C10: pattern-leaf collection applies no eligibility filtering: each
operand, attribute, or property matcher leaf registers its constraint
unconditionally into the registry of its kind, and the registered
constraint is returned by the fallible lookups, with no requirement that
the op-collection eligibility predicates hold. -/
theorem claim10_pattern_collection_unconditional
    (st : StaticVerifierFunctionEmitter) (c : Constraint) :
    st.collectPatternConstraints [DagLeaf.operandMatcher c] =
      { st with typeConstraints :=
          collectConstraint st.uniqueOutputLabel st.typeConstraints "type" c } ∧
    st.collectPatternConstraints [DagLeaf.attrMatcher c] =
      { st with attrConstraints :=
          collectConstraint st.uniqueOutputLabel st.attrConstraints "attr" c } ∧
    st.collectPatternConstraints [DagLeaf.propMatcher c] =
      { st with propConstraints :=
          collectConstraint st.uniqueOutputLabel st.propConstraints "prop" c } ∧
    ((st.collectPatternConstraints [DagLeaf.attrMatcher c]).getAttrConstraintFn c).isSome
      = true ∧
    ((st.collectPatternConstraints [DagLeaf.propMatcher c]).getPropConstraintFn c).isSome
      = true := by
  refine ⟨rfl, rfl, rfl, ?_, ?_⟩
  · show (lookupConstraint
      (collectConstraint st.uniqueOutputLabel st.attrConstraints "attr" c) c).isSome = true
    exact lookupConstraint_collect_self _ _ _ _
  · show (lookupConstraint
      (collectConstraint st.uniqueOutputLabel st.propConstraints "prop" c) c).isSome = true
    exact lookupConstraint_collect_self _ _ _ _

end CodeGenHelpers
